import Mathlib

/-!
# Verification of `legal_extract_app2.py`

A shallow embedding of the legal-document extraction pipeline
(`src/legal_extract_app2/legal_extract_app2.py`) and proofs about it.

Modelling conventions:
* Python strings are Lean `String`s; `str.strip()` and `str.lower()` are
  modelled character-wise (`pyStrip`, `pyLower`) to mirror Python's
  per-character semantics.
* Parsed JSON objects (the model's reply) are association lists
  `JDict = List (String × JVal)` with Python-dict semantics:
  `lookup` finds the binding, `set` updates in place or appends.
* Fallible Python code (anything that can `raise`) returns
  `Except String α`, the error being the exception message.
* External effects (file reads, the OCR engine, the model backend) are
  inputs to the embedded functions: each file carries the outcome each
  collaborator would produce for it.
-/

set_option autoImplicit false

namespace LegalExtract

/-- Character-wise model of Python's `str.strip()`. -/
def pyStrip (s : String) : String :=
  ⟨((s.data.dropWhile Char.isWhitespace).reverse.dropWhile Char.isWhitespace).reverse⟩

/-- Character-wise model of Python's `str.lower()` (ASCII suffixes only arise here). -/
def pyLower (s : String) : String :=
  ⟨s.data.map Char.toLower⟩

/-- Character-wise model of Python's slice `s[:n]`. -/
def pySlice (s : String) (n : Nat) : String :=
  ⟨s.data.take n⟩

/-- JSON values as they come out of `json.loads` on the model's reply. -/
inductive JVal where
  | jnull
  | jstr (s : String)
  | jnum (n : Int)
  | jbool (b : Bool)
  deriving DecidableEq, Repr

/-- Python's `str(value)` on a parsed JSON value. -/
def JVal.pyStr : JVal → String
  | .jnull => "None"
  | .jstr s => s
  | .jnum n => toString n
  | .jbool b => if b then "True" else "False"

/-- A Python dict of JSON values, in insertion order. -/
abbrev JDict := List (String × JVal)

/-- `d[k]` / `k in d`: first (unique) binding for `k`. -/
def jget : JDict → String → Option JVal
  | [], _ => none
  | (k, v) :: rest, key => if k = key then some v else jget rest key

/-- `d[k] = v`: replace in place when the key exists, else append (Python dict semantics). -/
def jset : JDict → String → JVal → JDict
  | [], key, val => [(key, val)]
  | (k, v) :: rest, key, val =>
      if k = key then (k, val) :: rest else (k, v) :: jset rest key val

/-- `list(d.keys())`. -/
def jkeys (d : JDict) : List String := d.map Prod.fst

/-! ## Global configuration (`REQUIRED_FIELDS`, sentinels, constants) -/

/-- The 11 required legal fields, in canonical order (source line 62). -/
def REQUIRED_FIELDS : List String :=
  ["文书名称", "案号", "审理法院", "判决日期", "原告/申请人",
   "被告/被申请人", "案由", "诉讼请求", "法院认为", "判决结果", "文书类型"]

/-- "not mentioned" sentinel. -/
def NOT_MENTIONED : String := "未提及"

/-- Failure sentinel written into every field of a failure record. -/
def EXTRACT_FAILED : String := "提取失败"

/-- Sentinel returned by `read_pdf_file` when no page has extractable text. -/
def PDF_NO_CONTENT : String := "PDF无有效文本内容"

/-- Sentinel returned by `read_txt_file` on an empty file. -/
def TXT_NO_CONTENT : String := "TXT文件无有效文本内容"

/-- DPI at which `tesseract_ocr_scanned_pdf` rasterizes pages (source line 91). -/
def SCAN_DPI : Nat := 300

/-! ## Structured extraction client (`extract_legal_data`, lines 184-231)

The network call, prompt construction and JSON parsing are collaborator
effects; what is algorithmic — and what the claims are about — is the
post-validation loop on the parsed reply (lines 226-228). -/

/-- One iteration of the fill loop (lines 226-228):
`if field not in d or not str(d[field]).strip(): d[field] = "未提及"`. -/
def fillField (d : JDict) (field : String) : JDict :=
  match jget d field with
  | none => jset d field (JVal.jstr NOT_MENTIONED)
  | some v => if pyStrip v.pyStr = "" then jset d field (JVal.jstr NOT_MENTIONED) else d

/-- `extract_legal_data`, from the successfully parsed model reply onwards:
runs the fill loop over every required field. -/
def extract_legal_data (reply : JDict) : JDict :=
  REQUIRED_FIELDS.foldl fillField reply

/-! ## OCR fallback engine (`tesseract_ocr_scanned_pdf`, lines 85-110)

Per-page recognition is the collaborator `tesseract_ocr_image`; the scanned
PDF is embedded as the list of per-page recognized texts (page order), each
already the result of that collaborator on the page's 300-DPI raster. -/

/-- The page-start marker carrying the 1-based page number (line 102). -/
def pageStartMarker (n : Nat) : String :=
  "【扫描件PDF-第" ++ toString n ++ "页开始】"

/-- The page-end marker carrying the 1-based page number (line 104), with the
trailing newline appended by the source. -/
def pageEndMarker (n : Nat) : String :=
  "【扫描件PDF-第" ++ toString n ++ "页结束】\n"

/-- The loop of lines 97-107: `for page_num, page in enumerate(pages, 1)`
extending `full_ocr_content` with start marker, page text, end marker. -/
def ocrPdfLoop : Nat → List String → List String
  | _, [] => []
  | n, t :: rest =>
      pageStartMarker n :: t :: pageEndMarker n :: ocrPdfLoop (n + 1) rest

/-- `tesseract_ocr_scanned_pdf` on the per-page OCR texts:
`"".join(full_ocr_content)` (line 108). -/
def tesseract_ocr_scanned_pdf (pageTexts : List String) : String :=
  String.join (ocrPdfLoop 1 pageTexts)

/-! ## Per-format readers and the dispatcher (`read_*`, `read_legal_file`,
lines 113-181)

Each file carries the outcome every collaborator read would produce on it;
the embedded reader functions combine those outcomes exactly as the source
does. -/

/-- `read_txt_file` (lines 135-147): try the primary UTF-8 read; on ANY
exception retry with GBK; an empty decoded text maps to the sentinel,
otherwise the text is stripped; a failure of the second attempt is wrapped
by the outer handler as `TXT读取异常：...`. -/
def read_txt_file (utf8Read gbkRead : Except String String) : Except String String :=
  let attempt : Except String String :=
    match utf8Read with
    | .ok t => .ok t
    | .error _ => gbkRead
  match attempt with
  | .ok text => .ok (if text = "" then TXT_NO_CONTENT else pyStrip text)
  | .error e => .error ("TXT读取异常：" ++ e)

/-- The `.pdf` branch of `read_legal_file` (lines 161-171): direct extraction
first; its yield is returned unless it is the no-content sentinel or empty,
in which case — or when anything in the `try` raises — the OCR path runs. -/
def pdfBranch (pdfDirect pdfOcr : Except String String) : Except String String :=
  match pdfDirect with
  | .ok t => if t ≠ PDF_NO_CONTENT ∧ t ≠ "" then .ok t else pdfOcr
  | .error _ => pdfOcr

/-- A file as the dispatcher sees it: its suffix plus the outcome each
collaborator read would produce for it. -/
structure LegalFile where
  suffix : String
  docxRead : Except String String
  pdfDirect : Except String String
  pdfOcr : Except String String
  imageOcr : Except String String
  txtUtf8 : Except String String
  txtGbk : Except String String
  deriving Repr

/-- `read_legal_file` (lines 150-181): dispatch on the lower-cased suffix.
The image branch tests membership in `[".jpg", ".jpeg", ".png", "bmp"]` —
the last entry dotless, exactly as in the source (line 173). -/
def read_legal_file (f : LegalFile) : Except String String :=
  let s := pyLower f.suffix
  if s = ".docx" then f.docxRead
  else if s = ".pdf" then pdfBranch f.pdfDirect f.pdfOcr
  else if s = ".jpg" ∨ s = ".jpeg" ∨ s = ".png" ∨ s = "bmp" then f.imageOcr
  else if s = ".txt" then read_txt_file f.txtUtf8 f.txtGbk
  else .error ("不支持的文件格式：" ++ s ++ "，请上传DOCX/PDF/TXT/JPG/PNG")

/-! ## Batch orchestrator (`main`'s processing loop, lines 317-359) -/

/-- The failure record built in the `except` branch (lines 343-346): every
required field set to the failure sentinel, provenance added, then the
document-title field overwritten with the truncated cause. -/
def errorRecord (name ts msg : String) : JDict :=
  jset (jset (jset (REQUIRED_FIELDS.map fun f => (f, JVal.jstr EXTRACT_FAILED))
      "文件名" (JVal.jstr name))
      "提取时间" (JVal.jstr ts))
      "文书名称" (JVal.jstr ("失败原因：" ++ pySlice msg 50 ++ "..."))

/-- An uploaded file from the orchestrator's perspective: its name, the
timestamp `datetime.now()` yields for it, and the combined outcome of
`read_legal_file` + `extract_legal_data` up to the parsed reply —
`.ok reply` when the pipeline reaches a parsed model reply, `.error msg`
when any stage raises. -/
structure UploadedFile where
  name : String
  ts : String
  pipeline : Except String JDict
  deriving Repr

/-- The body of the per-file loop (lines 324-348): on success the filled
record gains the provenance fields; on any exception a failure record. -/
def processFile (file : UploadedFile) : JDict :=
  match file.pipeline with
  | .ok reply =>
      jset (jset (extract_legal_data reply) "文件名" (JVal.jstr file.name))
        "提取时间" (JVal.jstr file.ts)
  | .error e => errorRecord file.name file.ts e

/-- The loop of lines 318-352 accumulating `st.session_state.result_list`:
each iteration appends exactly one record and continues. -/
def batchLoop : List UploadedFile → List JDict → List JDict
  | [], acc => acc
  | f :: rest, acc => batchLoop rest (acc ++ [processFile f])

/-- The whole batch run: the result list is cleared (line 310) then the loop
runs over the files in submission order. -/
def runBatch (files : List UploadedFile) : List JDict :=
  batchLoop files []

/-- `success_count` (line 357): records whose document-title field differs
from the failure sentinel. -/
def success_count (results : List JDict) : Nat :=
  (results.filter fun r => !(jget r "文书名称" == some (JVal.jstr EXTRACT_FAILED))).length

/-- `fail_count` (line 358): total file count minus the success count. -/
def fail_count (totalFiles : Nat) (results : List JDict) : Nat :=
  totalFiles - success_count results

/-! ## Exporter (`save_legal_excel`, lines 234-254) -/

/-- Column order of the exported table (line 244). -/
def col_order : List String := ["文件名", "提取时间"] ++ REQUIRED_FIELDS

/-- The exported workbook content: header row, data rows, and whether a
synthetic index column was written (`index=False` at line 251). -/
structure ExcelContent where
  header : List String
  rows : List (List JVal)
  hasIndexColumn : Bool
  deriving DecidableEq, Repr

/-- `save_legal_excel`: projects each record onto `col_order` (a key a record
lacks while another one has it shows up as the absent marker `jnull`, the
embedding of pandas' NaN), writes a header row and no index column, and
names the output file with the generation timestamp. Returns the content
and the output filename. -/
def save_legal_excel (result_list : List JDict) (time_stamp : String) :
    ExcelContent × String :=
  ({ header := col_order
     rows := result_list.map fun r => col_order.map fun c => (jget r c).getD JVal.jnull
     hasIndexColumn := false },
   "裁判文书提取结果_" ++ time_stamp ++ ".xlsx")

/-! ## Spec-side definitions

These follow the spec's words, for comparison against the embedded code. -/

/-- The key set the spec requires of every record: the two provenance keys
plus the 11 schema fields. -/
def EXPECTED_KEYS : List String := ["文件名", "提取时间"] ++ REQUIRED_FIELDS

/-- Decidable statement of the spec's schema-completeness invariant, from the
spec's words: the key set equals exactly `EXPECTED_KEYS` and no value is
null. -/
def schemaExact (r : JDict) : Bool :=
  EXPECTED_KEYS.all (fun k => (jkeys r).contains k) &&
  (jkeys r).all (fun k => EXPECTED_KEYS.contains k) &&
  r.all (fun kv => !(kv.2 == JVal.jnull))

/-! ## Dictionary lemmas -/

theorem jget_jset_self (d : JDict) (k : String) (v : JVal) :
    jget (jset d k v) k = some v := by
  induction d with
  | nil => simp [jset, jget]
  | cons hd tl ih =>
      obtain ⟨k', v'⟩ := hd
      by_cases h : k' = k <;> simp [jset, jget, h, ih]

theorem jget_jset_ne (d : JDict) (k k' : String) (v : JVal) (h : k' ≠ k) :
    jget (jset d k' v) k = jget d k := by
  induction d with
  | nil => simp [jset, jget, h]
  | cons hd tl ih =>
      obtain ⟨k'', v''⟩ := hd
      by_cases h' : k'' = k'
      · subst h'
        simp [jset, jget, h]
      · simp [jset, jget, h']
        by_cases h'' : k'' = k <;> simp [h'', ih]

theorem jget_jset_isSome (d : JDict) (k k' : String) (v : JVal)
    (h : (jget d k).isSome) : (jget (jset d k' v) k).isSome := by
  by_cases hk : k' = k
  · subst hk; simp [jget_jset_self]
  · rwa [jget_jset_ne d k k' v hk]

/-! ## Fill-loop lemmas -/

theorem fillField_jget_other (d : JDict) (g k : String) (h : g ≠ k) :
    jget (fillField d g) k = jget d k := by
  unfold fillField
  cases jget d g with
  | none => exact jget_jset_ne d k g _ h
  | some v =>
      by_cases hb : pyStrip v.pyStr = "" <;> simp [hb, jget_jset_ne d k g _ h]

theorem fillField_isSome (d : JDict) (f : String) :
    (jget (fillField d f) f).isSome := by
  unfold fillField
  cases hv : jget d f with
  | none => simp [jget_jset_self]
  | some v =>
      by_cases hb : pyStrip v.pyStr = "" <;> simp [hb, jget_jset_self, hv]

theorem fillField_preserves_isSome (d : JDict) (g k : String)
    (h : (jget d k).isSome) : (jget (fillField d g) k).isSome := by
  unfold fillField
  cases jget d g with
  | none => exact jget_jset_isSome d k g _ h
  | some v =>
      by_cases hb : pyStrip v.pyStr = "" <;> simp [hb, jget_jset_isSome d k g _ h, h]

theorem fillField_keeps_nonblank (d : JDict) (g k : String) (v : JVal)
    (hv : jget d k = some v) (hb : pyStrip v.pyStr ≠ "") :
    jget (fillField d g) k = some v := by
  by_cases hgk : g = k
  · subst hgk
    unfold fillField
    rw [hv]
    simp [hb, hv]
  · rw [fillField_jget_other d g k hgk, hv]

theorem foldl_fill_keeps_nonblank (fields : List String) (d : JDict)
    (k : String) (v : JVal) (hv : jget d k = some v) (hb : pyStrip v.pyStr ≠ "") :
    jget (fields.foldl fillField d) k = some v := by
  induction fields generalizing d with
  | nil => simpa using hv
  | cons g rest ih =>
      exact ih (fillField d g) (fillField_keeps_nonblank d g k v hv hb)

theorem foldl_fill_preserves_isSome (fields : List String) (d : JDict)
    (k : String) (h : (jget d k).isSome) :
    (jget (fields.foldl fillField d) k).isSome := by
  induction fields generalizing d with
  | nil => simpa using h
  | cons g rest ih =>
      exact ih (fillField d g) (fillField_preserves_isSome d g k h)

theorem foldl_fill_mem_isSome (fields : List String) (d : JDict)
    (f : String) (hf : f ∈ fields) :
    (jget (fields.foldl fillField d) f).isSome := by
  induction fields generalizing d with
  | nil => cases hf
  | cons g rest ih =>
      rcases List.mem_cons.1 hf with h | h
      · subst h
        exact foldl_fill_preserves_isSome rest (fillField d f) f (fillField_isSome d f)
      · exact ih (fillField d g) h

theorem foldl_fill_sentinel (fields : List String) (d : JDict) (f : String)
    (hf : f ∈ fields)
    (h : jget d f = none ∨ ∃ v, jget d f = some v ∧ pyStrip v.pyStr = "") :
    jget (fields.foldl fillField d) f = some (JVal.jstr NOT_MENTIONED) := by
  induction fields generalizing d with
  | nil => cases hf
  | cons g rest ih =>
      rcases List.mem_cons.1 hf with hgf | hmem
      · subst hgf
        have hfill : jget (fillField d f) f = some (JVal.jstr NOT_MENTIONED) := by
          unfold fillField
          rcases h with h | ⟨v, hv, hb⟩
          · rw [h]; exact jget_jset_self d f _
          · rw [hv]; simp [hb, jget_jset_self]
        exact foldl_fill_keeps_nonblank rest (fillField d f) f _ hfill (by decide)
      · by_cases hgf : g = f
        · subst hgf
          have hfill : jget (fillField d g) g = some (JVal.jstr NOT_MENTIONED) := by
            unfold fillField
            rcases h with h | ⟨v, hv, hb⟩
            · rw [h]; exact jget_jset_self d g _
            · rw [hv]; simp [hb, jget_jset_self]
          exact foldl_fill_keeps_nonblank rest (fillField d g) g _ hfill (by decide)
        · refine ih (fillField d g) hmem ?_
          rw [fillField_jget_other d g f hgf]
          exact h

/-! ## Failure-record lemmas -/

theorem errorRecord_explicit (n t m : String) :
    errorRecord n t m =
      [("文书名称", JVal.jstr ("失败原因：" ++ pySlice m 50 ++ "...")),
       ("案号", JVal.jstr EXTRACT_FAILED), ("审理法院", JVal.jstr EXTRACT_FAILED),
       ("判决日期", JVal.jstr EXTRACT_FAILED), ("原告/申请人", JVal.jstr EXTRACT_FAILED),
       ("被告/被申请人", JVal.jstr EXTRACT_FAILED), ("案由", JVal.jstr EXTRACT_FAILED),
       ("诉讼请求", JVal.jstr EXTRACT_FAILED), ("法院认为", JVal.jstr EXTRACT_FAILED),
       ("判决结果", JVal.jstr EXTRACT_FAILED), ("文书类型", JVal.jstr EXTRACT_FAILED),
       ("文件名", JVal.jstr n), ("提取时间", JVal.jstr t)] := rfl

theorem errorRecord_schemaExact (n t m : String) :
    schemaExact (errorRecord n t m) = true := rfl

theorem errorRecord_allKeys (n t m : String) :
    (EXPECTED_KEYS.all fun k => (jget (errorRecord n t m) k).isSome) = true := rfl

/-! ## Claim theorems -/

/-- C1: at the spec's own example input — a batch of 3 files where exactly
file #2's processing raises — the completion report computed by `main`
(lines 357-358) counts all 3 files as successes and 0 as failures, because a
failure record's document-title field holds `失败原因：...` and therefore
never equals the sentinel `提取失败` that the success filter tests. The
claimed counts are 2 and 1. -/
theorem C1_count_eval :
    success_count (runBatch
      [⟨"a.docx", "2026-10-12 10:00:00", .ok [("文书名称", JVal.jstr "判决书A")]⟩,
       ⟨"b.pdf", "2026-10-12 10:00:01", .error "图片OCR识别异常：engine raised"⟩,
       ⟨"c.txt", "2026-10-12 10:00:02", .ok [("文书名称", JVal.jstr "判决书C")]⟩]) = 3 ∧
    fail_count 3 (runBatch
      [⟨"a.docx", "2026-10-12 10:00:00", .ok [("文书名称", JVal.jstr "判决书A")]⟩,
       ⟨"b.pdf", "2026-10-12 10:00:01", .error "图片OCR识别异常：engine raised"⟩,
       ⟨"c.txt", "2026-10-12 10:00:02", .ok [("文书名称", JVal.jstr "判决书C")]⟩]) = 0 := by
  decide

/-- C2 counterexample: a record built from a model reply that carries an
extra key and a JSON null does NOT satisfy the claimed exact-schema
invariant — the extra key survives (`extract_legal_data` only adds missing
fields) and the null survives (`str(None)` is the non-blank `"None"`). -/
theorem C2_schema_counterexample :
    schemaExact ((runBatch [⟨"a.docx", "2026-10-12 10:00:00",
      .ok [("额外字段", JVal.jstr "x"), ("案号", JVal.jnull)]⟩]).getD 0 []) = false := by
  decide

/-- C2 (amended): every record, successful or failed, contains AT LEAST the
11 schema fields plus the two provenance keys — none of those 13 keys is
absent — and a failure record's key set is exactly those 13 keys with no
null values. (Extra keys or null values in a successful model reply are
carried through into the record.) -/
theorem C2_schema_superset (file : UploadedFile) :
    (∀ k ∈ EXPECTED_KEYS, (jget (processFile file) k).isSome) ∧
    (∀ e, file.pipeline = .error e → schemaExact (processFile file) = true) := by
  constructor
  · intro k hk
    obtain ⟨name, ts, pipeline⟩ := file
    cases pipeline with
    | ok reply =>
        show (jget (jset (jset (extract_legal_data reply) "文件名" _) "提取时间" _) k).isSome
        rcases List.mem_cons.1 hk with rfl | hk'
        · refine jget_jset_isSome _ _ _ _ ?_
          simp [jget_jset_self]
        · rcases List.mem_cons.1 hk' with rfl | hk''
          · simp [jget_jset_self]
          · refine jget_jset_isSome _ _ _ _ (jget_jset_isSome _ _ _ _ ?_)
            exact foldl_fill_mem_isSome REQUIRED_FIELDS reply k hk''
    | error e =>
        show (jget (errorRecord name ts e) k).isSome
        have h := errorRecord_allKeys name ts e
        rw [List.all_eq_true] at h
        simpa using h k hk
  · intro e he
    obtain ⟨name, ts, pipeline⟩ := file
    cases pipeline with
    | ok reply => cases he
    | error e' =>
        cases he
        exact errorRecord_schemaExact name ts e

/-- C2 witness: the amended theorem applied at a concrete failed file. -/
theorem C2_schema_superset_witness :
    schemaExact (processFile ⟨"a.docx", "2026-10-12 10:00:00", .error "boom"⟩) = true :=
  (C2_schema_superset ⟨"a.docx", "2026-10-12 10:00:00", .error "boom"⟩).2 "boom" rfl

/-- C3: a file with suffix `.bmp` is NOT routed to the image-OCR path: even
when image OCR would succeed, `read_legal_file` rejects the file as an
unsupported format, because the dispatch list at source line 173 contains
the dotless string `"bmp"` where `.bmp` was intended (the uploader
whitelist at line 296 and the docstrings at lines 72 and 172 both include
BMP). -/
theorem C3_bmp_rejected :
    read_legal_file ⟨".bmp", .ok "docx text", .ok "pdf text", .ok "pdf ocr",
      .ok "image ocr text", .ok "utf8 text", .ok "gbk text"⟩ =
      .error "不支持的文件格式：.bmp，请上传DOCX/PDF/TXT/JPG/PNG" := rfl

/-- C5: if the parsed model reply omits a required field F or maps F to a
blank / whitespace-only string, then the record returned by
`extract_legal_data` maps F to the `未提及` ("not mentioned") sentinel. -/
theorem C5_sentinel_fill (reply : JDict) (F : String) (hF : F ∈ REQUIRED_FIELDS)
    (h : jget reply F = none ∨ ∃ s, jget reply F = some (JVal.jstr s) ∧ pyStrip s = "") :
    jget (extract_legal_data reply) F = some (JVal.jstr NOT_MENTIONED) := by
  refine foldl_fill_sentinel REQUIRED_FIELDS reply F hF ?_
  rcases h with h | ⟨s, hs, hb⟩
  · exact Or.inl h
  · exact Or.inr ⟨JVal.jstr s, hs, hb⟩

/-- C5 witness: a reply carrying a whitespace-only case number is filled with
the sentinel. -/
theorem C5_sentinel_fill_witness :
    jget (extract_legal_data [("案号", JVal.jstr "  ")]) "案号" =
      some (JVal.jstr NOT_MENTIONED) :=
  C5_sentinel_fill [("案号", JVal.jstr "  ")] "案号" (by decide)
    (Or.inr ⟨"  ", by decide, by decide⟩)

/-- C4: for a `.pdf` file, an empty or no-content-sentinel direct yield — or
a raising direct extraction — routes to the OCR path; a non-empty,
non-sentinel direct yield is returned and OCR is not invoked. -/
theorem C4_pdf_routing (f : LegalFile) (hs : pyLower f.suffix = ".pdf") :
    ((f.pdfDirect = .ok "" ∨ f.pdfDirect = .ok PDF_NO_CONTENT ∨
        ∃ e, f.pdfDirect = .error e) → read_legal_file f = f.pdfOcr) ∧
    (∀ t, f.pdfDirect = .ok t → t ≠ "" → t ≠ PDF_NO_CONTENT →
      read_legal_file f = .ok t) := by
  have hdisp : read_legal_file f = pdfBranch f.pdfDirect f.pdfOcr := by
    simp [read_legal_file, hs]
  constructor
  · rintro (h | h | ⟨e, h⟩) <;> rw [hdisp, h] <;> simp [pdfBranch, PDF_NO_CONTENT]
  · intro t ht h1 h2
    rw [hdisp, ht]
    simp [pdfBranch, h1, h2]

/-- C4 witness: a PDF with an empty direct yield is handed to the OCR path. -/
theorem C4_pdf_routing_witness :
    read_legal_file ⟨".pdf", .ok "docx text", .ok "", .ok "ocr text",
      .ok "image ocr", .ok "utf8 text", .ok "gbk text"⟩ = .ok "ocr text" :=
  (C4_pdf_routing ⟨".pdf", .ok "docx text", .ok "", .ok "ocr text",
      .ok "image ocr", .ok "utf8 text", .ok "gbk text"⟩ rfl).1 (Or.inl rfl)

theorem batchLoop_eq (files : List UploadedFile) (acc : List JDict) :
    batchLoop files acc = acc ++ files.map processFile := by
  induction files generalizing acc with
  | nil => simp [batchLoop]
  | cons f rest ih => simp [batchLoop, ih]

theorem map_processFile_getD (files : List UploadedFile) (i : Nat)
    (h : i < files.length) :
    (files.map processFile).getD i [] = processFile (files.get ⟨i, h⟩) := by
  induction files generalizing i with
  | nil => cases h
  | cons f rest ih =>
      cases i with
      | zero => rfl
      | succ j => exact ih j (Nat.lt_of_succ_lt_succ h)

/-- C6: the batch loop appends exactly one record per input file, in
submission order, and a file whose pipeline raises at any stage yields the
failure record at its position while every other file is still processed. -/
theorem C6_batch_isolation (files : List UploadedFile) :
    (runBatch files).length = files.length ∧
    (∀ (i : Nat) (h : i < files.length),
      (runBatch files).getD i [] = processFile (files.get ⟨i, h⟩)) ∧
    (∀ (i : Nat) (h : i < files.length) (e : String),
      (files.get ⟨i, h⟩).pipeline = .error e →
      (runBatch files).getD i [] =
        errorRecord (files.get ⟨i, h⟩).name (files.get ⟨i, h⟩).ts e) := by
  have hr : runBatch files = files.map processFile := by
    simpa using batchLoop_eq files []
  refine ⟨by rw [hr]; simp, ?_, ?_⟩
  · intro i h
    rw [hr]
    exact map_processFile_getD files i h
  · intro i h e he
    rw [hr, map_processFile_getD files i h]
    simp only [processFile]
    rw [he]

/-- C6 witness: in a 2-file batch whose first file raises, the second file is
still processed and holds position 1. -/
theorem C6_batch_isolation_witness :
    (runBatch [⟨"a.pdf", "t1", .error "boom"⟩, ⟨"b.txt", "t2", .ok []⟩]).getD 1 [] =
      processFile ⟨"b.txt", "t2", .ok []⟩ :=
  (C6_batch_isolation
      [⟨"a.pdf", "t1", .error "boom"⟩, ⟨"b.txt", "t2", .ok []⟩]).2.1 1 (by decide)

/-- C7: a `.txt` file whose primary UTF-8 read raises but whose GBK read
succeeds is read successfully, returning the GBK-decoded text. -/
theorem C7_gbk_fallback (f : LegalFile) (hs : pyLower f.suffix = ".txt")
    (e1 t : String) (hu : f.txtUtf8 = .error e1) (hg : f.txtGbk = .ok t)
    (hstrip : pyStrip t = t) (hne : t ≠ "") :
    read_legal_file f = .ok t := by
  simp [read_legal_file, hs, read_txt_file, hu, hg, hne, hstrip]

/-- C7 witness: a concrete GBK-only text file is read via the fallback. -/
theorem C7_gbk_fallback_witness :
    read_legal_file ⟨".txt", .ok "docx text", .ok "pdf text", .ok "pdf ocr",
      .ok "image ocr", .error "utf8 decode error", .ok "民事判决书全文"⟩ =
      .ok "民事判决书全文" :=
  C7_gbk_fallback ⟨".txt", .ok "docx text", .ok "pdf text", .ok "pdf ocr",
      .ok "image ocr", .error "utf8 decode error", .ok "民事判决书全文"⟩
    rfl "utf8 decode error" "民事判决书全文" rfl rfl (by decide) (by decide)

theorem join_cons (a : String) (l : List String) :
    String.join (a :: l) = a ++ String.join l := by
  obtain ⟨ad⟩ := a
  rw [String.join_eq, String.join_eq]
  rfl

theorem ocrPdfLoop_join (n : Nat) (l : List String) :
    String.join (ocrPdfLoop n l) =
      String.join ((List.enumFrom n l).map
        fun p => pageStartMarker p.1 ++ (p.2 ++ pageEndMarker p.1)) := by
  induction l generalizing n with
  | nil => rfl
  | cons t rest ih =>
      simp only [ocrPdfLoop, List.enumFrom, List.map, join_cons, ih,
        String.append_assoc]

/-- C8: the scanned-PDF OCR engine rasterizes at 300 DPI and returns the
in-order concatenation of each page's recognized text wrapped between the
page-start and page-end markers carrying the 1-based page number. -/
theorem C8_scanned_pdf (pageTexts : List String) :
    SCAN_DPI = 300 ∧
    tesseract_ocr_scanned_pdf pageTexts =
      String.join ((List.enumFrom 1 pageTexts).map
        fun p => pageStartMarker p.1 ++ (p.2 ++ pageEndMarker p.1)) :=
  ⟨rfl, ocrPdfLoop_join 1 pageTexts⟩

/-- C9: the exporter writes the fixed column order (filename, extraction
timestamp, then the 11 schema fields in canonical order), a header row, no
synthetic index column, and its content is unchanged across two exports of
the same collection with different generation timestamps. -/
theorem C9_export (result_list : List JDict) (ts1 ts2 : String) :
    (save_legal_excel result_list ts1).1.header =
      ["文件名", "提取时间"] ++ REQUIRED_FIELDS ∧
    (save_legal_excel result_list ts1).1.hasIndexColumn = false ∧
    (save_legal_excel result_list ts1).1.rows =
      result_list.map (fun r => (["文件名", "提取时间"] ++ REQUIRED_FIELDS).map
        fun c => (jget r c).getD JVal.jnull) ∧
    (save_legal_excel result_list ts1).1 = (save_legal_excel result_list ts2).1 :=
  ⟨rfl, rfl, rfl, rfl⟩

/-- C10: the GBK fallback runs whenever the primary UTF-8 read raises for ANY
reason (the reader's outcome is then determined by the second attempt and
is independent of the first error), and only a failure of the second
attempt propagates as the reader's error. -/
theorem C10_any_error_fallback (e1 : String) (gbkRead : Except String String) :
    (∀ t, gbkRead = .ok t → read_txt_file (.error e1) gbkRead =
        .ok (if t = "" then TXT_NO_CONTENT else pyStrip t)) ∧
    (∀ e2, gbkRead = .error e2 →
      read_txt_file (.error e1) gbkRead = .error ("TXT读取异常：" ++ e2)) ∧
    (∀ e1', read_txt_file (.error e1) gbkRead = read_txt_file (.error e1') gbkRead) := by
  refine ⟨?_, ?_, ?_⟩ <;> intros <;> simp_all [read_txt_file]

/-- C10 witness: an I/O-style primary failure followed by a failing GBK read
propagates the second attempt's error, wrapped by the outer handler. -/
theorem C10_any_error_fallback_witness :
    read_txt_file (.error "io error during first read") (.error "gbk boom") =
      .error ("TXT读取异常：" ++ "gbk boom") :=
  (C10_any_error_fallback "io error during first read" (.error "gbk boom")).2.1
    "gbk boom" rfl

end LegalExtract
